import Mathlib

/-
  Verification development for the Uartium frame decoder and trigger engine.

  The Python source (src/uartium/serial_backend.py, src/uartium/triggers.py,
  src/test_message_parse.py) is shallowly embedded below.  Strings are
  modelled as Lean `String`/`List Char`; Python floats are modelled as exact
  rationals (`Rat`); Python `int(...)` / `float(...)` parsing is modelled on
  decimal literals (digit-group underscores, `inf`/`nan` and non-decimal
  bases are not modelled, none of the verified properties depend on them);
  Python exceptions that escape a function are modelled with `Except Unit`.
-/

namespace Uartium

/-! ### Character and string helpers (Python `str` primitives) -/

/-- Python `str.strip()` restricted to ASCII whitespace. -/
def pyStrip (l : List Char) : List Char :=
  ((l.dropWhile Char.isWhitespace).reverse.dropWhile Char.isWhitespace).reverse

/-- Worker for `pyWords`, accumulating the current word reversed. -/
def wordsAux : List Char → List Char → List (List Char)
  | acc, [] => if acc.isEmpty then [] else [acc.reverse]
  | acc, c :: rest =>
      if c.isWhitespace then
        if acc.isEmpty then wordsAux [] rest else acc.reverse :: wordsAux [] rest
      else wordsAux (c :: acc) rest

/-- Python `str.split()` with no argument: split on whitespace runs, no empty tokens. -/
def pyWords (l : List Char) : List (List Char) := wordsAux [] l

/-- Split a list at the first character satisfying `p`; `none` when absent.
Models Python `str.partition(sep)` for a one-character separator (the found
separator itself is dropped). -/
def splitFirstP (p : Char → Bool) : List Char → Option (List Char × List Char)
  | [] => none
  | x :: rest =>
      if p x then some ([], rest)
      else (splitFirstP p rest).map (fun q => (x :: q.1, q.2))

/-- Split a list at the last occurrence of character `c`; models Python
`str.rpartition(c)` when `c` occurs (the code always guards with `in`). -/
def splitLast (c : Char) (l : List Char) : Option (List Char × List Char) :=
  (splitFirstP (fun x => x == c) l.reverse).map (fun p => (p.2.reverse, p.1.reverse))

/-- Decimal digits to a natural number. -/
def digitsToNat (l : List Char) : Nat :=
  l.foldl (fun n c => n * 10 + (c.toNat - 48)) 0

/-- A nonempty all-digit run parsed as a natural number. -/
def parseDigits (l : List Char) : Option Nat :=
  if l.isEmpty then none
  else if l.all Char.isDigit then some (digitsToNat l) else none

/-- Python `int(s)` on decimal literals: surrounding whitespace, one optional
sign, then a nonempty digit run. -/
def pyInt (s : String) : Option Int :=
  match pyStrip s.toList with
  | '-' :: rest => (parseDigits rest).map (fun n => -(n : Int))
  | '+' :: rest => (parseDigits rest).map (fun n => (n : Int))
  | l => (parseDigits l).map (fun n => (n : Int))

/-- Optional leading sign: returns (isNegative, rest). -/
def parseSign : List Char → Bool × List Char
  | '-' :: rest => (true, rest)
  | '+' :: rest => (false, rest)
  | l => (false, l)

/-- Mantissa of a float literal: `digits`, `digits.digits`, `.digits` or
`digits.` with at least one digit overall. -/
def parseMantissa (l : List Char) : Option Rat :=
  match splitFirstP (fun c => c == '.') l with
  | none => (parseDigits l).map (fun n => (n : Rat))
  | some (ip, fp) =>
      if ip.isEmpty && fp.isEmpty then none
      else if ip.all Char.isDigit && fp.all Char.isDigit then
        some ((digitsToNat ip : Rat) + (digitsToNat fp : Rat) / ((10 : Rat) ^ fp.length))
      else none

/-- Python `float(s)` on finite decimal literals, as an exact rational:
optional sign, mantissa, optional `e`/`E` exponent with optional sign. -/
def pyFloat (s : String) : Option Rat :=
  let l := pyStrip s.toList
  let sg := parseSign l
  let core :=
    match splitFirstP (fun c => c == 'e' || c == 'E') sg.2 with
    | none => parseMantissa sg.2
    | some (mant, ex) =>
        let esg := parseSign ex
        match parseMantissa mant, parseDigits esg.2 with
        | some m, some e =>
            some (if esg.1 then m / ((10 : Rat) ^ e) else m * ((10 : Rat) ^ e))
        | _, _ => none
  core.map (fun q => if sg.1 then -q else q)

/-! ### Message field extraction

`SerialBackend._extract_message_field` searches `:m"([^"]*)"` (naive: the
quoted content may not contain any quote, no escapes, no unescaping), while
the variant in `test_message_parse.py` searches `:m"((?:[^"\\]|\\.)*)"` and
unescapes `\"` and `\\`.  Both are embedded; the regex search is modelled
directly: leftmost start position wins, and at a given start the quoted
content is matched greedily (the alternatives of both patterns are disjoint
on their first character, so the greedy parse below is exactly the regex
match). -/

/-- Content matcher for the naive pattern `[^"]*` followed by `"`:
returns (content, rest-after-closing-quote). -/
def matchToQuote : List Char → Option (List Char × List Char)
  | [] => none
  | c :: rest =>
      if c == '"' then some ([], rest)
      else (matchToQuote rest).map (fun p => (c :: p.1, p.2))

/-- Content matcher for the escape-aware pattern `(?:[^"\\]|\\.)*` followed
by `"`. -/
def matchEscContent : List Char → Option (List Char × List Char)
  | [] => none
  | c :: rest =>
      if c == '"' then some ([], rest)
      else if c == '\\' then
        match rest with
        | [] => none
        | d :: rest2 => (matchEscContent rest2).map (fun p => (c :: d :: p.1, p.2))
      else (matchEscContent rest).map (fun p => (c :: p.1, p.2))

/-- Leftmost search for `:m"` followed by a content match: returns
(text-before-match, content, text-after-match). -/
def msgSearchAux (f : List Char → Option (List Char × List Char)) :
    List Char → List Char → Option (List Char × List Char × List Char)
  | _, [] => none
  | acc, c :: rest =>
      if c == ':' then
        match rest with
        | 'm' :: '"' :: rest2 =>
            match f rest2 with
            | some (content, rem) => some (acc.reverse, content, rem)
            | none => msgSearchAux f (c :: acc) rest
        | _ => msgSearchAux f (c :: acc) rest
      else msgSearchAux f (c :: acc) rest

/-- `SerialBackend._extract_message_field` (src/uartium/serial_backend.py):
naive quote matching, no unescaping; on a match the span is removed and the
remainder stripped, otherwise the text is returned unchanged. -/
def extractMessageField (text : String) : Option String × String :=
  match msgSearchAux matchToQuote [] text.toList with
  | some (pre, content, rest) =>
      (some (String.mk content), String.mk (pyStrip (pre ++ rest)))
  | none => (none, text)

/-- One pass of Python `str.replace(ab, r)` for a two-character needle
`[a, b]` replaced by the single character `r`, left to right,
non-overlapping. -/
def replacePair (a b r : Char) : List Char → List Char
  | [] => []
  | [x] => [x]
  | x :: y :: rest =>
      if x == a && y == b then r :: replacePair a b r rest
      else x :: replacePair a b r (y :: rest)

/-- The unescaping done by the test variant: `\"` to `"` first, then
`\\` to `\`. -/
def unescapeMessage (l : List Char) : List Char :=
  replacePair '\\' '\\' '\\' (replacePair '\\' '"' '"' l)

/-- `_extract_message_field` from src/test_message_parse.py: escape-aware
quote matching with unescaping of `\"` and `\\`. -/
def extractMessageFieldEscaped (text : String) : Option String × String :=
  match msgSearchAux matchEscContent [] text.toList with
  | some (pre, content, rest) =>
      (some (String.mk (unescapeMessage content)), String.mk (pyStrip (pre ++ rest)))
  | none => (none, text)

/-! ### Level detection (`SerialBackend._parse_line`, first loop)

The source iterates the set `DATA_TYPE = {"ERROR","WARNING","INFO","DEBUG"}`
in unspecified order; since the three prefix forms of distinct tags can never
match the same line simultaneously (the tags differ in their first letter and
the forms differ in their delimiter), a fixed iteration order is
observationally equal to the source. -/

def levelTags : List String := ["ERROR", "WARNING", "INFO", "DEBUG"]

/-- Python `str.upper()` restricted to ASCII. -/
def upperChars (l : List Char) : List Char := l.map Char.toUpper

/-- The three prefix forms tried for a tag: `[TAG]`, `TAG:`, `TAG `. -/
def tagForms (tag : String) : List (List Char) :=
  ['[' :: (tag.toList ++ [']']), tag.toList ++ [':'], tag.toList ++ [' ']]

/-- Try the three forms for one tag against the uppercased line; on a match
return the rest of the original line, stripped. -/
def tryTag (line : List Char) (tag : String) : Option (List Char) :=
  (tagForms tag).findSome? (fun p =>
    if p.isPrefixOf (upperChars line) then some (pyStrip (line.drop p.length))
    else none)

/-- Level detection: first matching tag wins; no match defaults to INFO with
the line unmodified. -/
def detectLevel (line : String) : String × String :=
  match levelTags.findSome? (fun tag => (tryTag line.toList tag).map (fun t => (tag, t))) with
  | some (lvl, rest) => (lvl, String.mk rest)
  | none => ("INFO", line)

/-! ### Typed values and generic field parsing (`_parse_data_fields`) -/

/-- A Python value stored in `data_fields`: int, float (as exact rational),
or the raw string. -/
inductive PyVal where
  | vInt : Int → PyVal
  | vFloat : Rat → PyVal
  | vStr : String → PyVal
deriving DecidableEq, Repr

/-- One `data_fields` entry: `{"value": ..., "type": ...}`. -/
structure Field where
  value : PyVal
  type : String
deriving DecidableEq, Repr

/-- `TYPE_MAP.get(type_char, "str")`; the suffix taken from `rpartition` can
be any string, unknown suffixes default to `"str"`. -/
def typeMapLookup (tc : List Char) : String :=
  if tc = ['u'] then "uint"
  else if tc = ['i'] then "int"
  else if tc = ['s'] then "str"
  else if tc = ['f'] then "float"
  else if tc = ['t'] then "timestamp"
  else if tc = ['m'] then "message"
  else "str"

/-- The conversion switch of `_parse_data_fields`: numeric conversions that
fail keep the raw string (the `except` branch), everything else keeps the raw
string as well.  `abs(int(v)) & 0xFFFFFFFF` is `natAbs` reduced modulo 2^32. -/
def convertValue (label : String) (raw : String) : PyVal :=
  if label = "uint" ∨ label = "timestamp" then
    match pyInt raw with
    | some n => .vInt ((n.natAbs % 2 ^ 32 : Nat) : Int)
    | none => .vStr raw
  else if label = "int" then
    match pyInt raw with
    | some n => .vInt n
    | none => .vStr raw
  else if label = "float" then
    match pyFloat raw with
    | some q => .vFloat q
    | none => .vStr raw
  else .vStr raw

/-- Name/type-suffix analysis and conversion for one token (the part of the
`_parse_data_fields` loop after `partition("=")`). -/
def mkField (namePart : List Char) (raw : String) : String × Field :=
  match splitLast ':' namePart with
  | some (vn, tc) =>
      let label := typeMapLookup tc
      (String.mk vn, ⟨convertValue label raw, label⟩)
  | none => (String.mk namePart, ⟨.vStr raw, "str"⟩)

/-- One loop iteration of `_parse_data_fields`: tokens without `=` are
dropped. -/
def fieldOfToken (tok : List Char) : Option (String × Field) :=
  match splitFirstP (fun c => c == '=') tok with
  | none => none
  | some (namePart, rawChars) => some (mkField namePart (String.mk rawChars))

/-- Python dict assignment on an insertion-ordered association list:
an existing key is updated in place, a new key is appended. -/
def upsertA {α β : Type} [DecidableEq α] : List (α × β) → α → β → List (α × β)
  | [], k, v => [(k, v)]
  | (k0, v0) :: rest, k, v =>
      if k0 = k then (k, v) :: rest else (k0, v0) :: upsertA rest k v

/-- `SerialBackend._parse_data_fields`. -/
def parseDataFields (text : String) : List (String × Field) :=
  (pyWords text.toList).foldl
    (fun acc tok =>
      match fieldOfToken tok with
      | none => acc
      | some kv => upsertA acc kv.1 kv.2) []

/-! ### Device timestamp extraction (`_extract_timestamp_field`) -/

/-- Whether one token is a parseable `name:t=<int>` field, and its uint32
value; mirrors the inner checks of the `_extract_timestamp_field` loop. -/
def tsOfToken (tok : List Char) : Option Nat :=
  match splitFirstP (fun c => c == '=') tok with
  | none => none
  | some (namePart, rawChars) =>
      match splitLast ':' namePart with
      | some p =>
          if p.2 = ['t'] then (pyInt (String.mk rawChars)).map (fun n => n.natAbs % 2 ^ 32)
          else none
      | none => none

/-- The token loop of `_extract_timestamp_field`: the first parseable
`:t=` token is removed and its value kept; every other token (including
later or unparseable `:t=` tokens) is kept. -/
def extractTsTokens : List (List Char) → Option Nat × List (List Char)
  | [] => (none, [])
  | tok :: rest =>
      match tsOfToken tok with
      | some v => (some v, rest)
      | none =>
          let r := extractTsTokens rest
          (r.1, tok :: r.2)

/-- `SerialBackend._extract_timestamp_field`: split into tokens, drop the
first parseable `:t=` token, rejoin with single spaces. -/
def extractTimestampField (text : String) : Option Nat × String :=
  let r := extractTsTokens (pyWords text.toList)
  (r.1, String.mk (List.intercalate [' '] r.2))

/-! ### Frame record assembly (`SerialBackend._parse_line`) -/

/-- The message dict produced by `_parse_line`.  `data_fields` is the
(possibly empty) parsed mapping; the source only inserts the key when the
dict is nonempty and every consumer reads it with a `{}` default, which is
observationally the same. -/
structure Msg where
  timestamp : Rat
  level : String
  text : String
  device_timestamp : Option Nat
  data_fields : List (String × Field)
deriving DecidableEq, Repr

/-- `SerialBackend._parse_line`.  `now` stands for the `time.time()` host
stamp.  Note the source computes `message_text if message_text else text`,
a truthiness test: an extracted empty message falls back to the leftover
text. -/
def parseLine (now : Rat) (line : String) : Msg :=
  let lv := detectLevel line
  let me := extractMessageField lv.2
  let te := extractTimestampField me.2
  { timestamp := now
    level := lv.1
    text :=
      match me.1 with
      | some m => if m = "" then te.2 else m
      | none => te.2
    device_timestamp := te.1
    data_fields := parseDataFields te.2 }

/-! ### Trigger engine (src/uartium/triggers.py)

The per-kind evaluators `_evaluate_variable_threshold`,
`_evaluate_message_pattern` and `_evaluate_message_rate` are embedded; they
are the functions `evaluate_message` dispatches to for every enabled
trigger.  Python floats appear as exact rationals.  A Python exception that
escapes the evaluator (comparison against a `None` threshold, division by a
zero window) is an `Except.error`.  The `TriggerEvent` embedding keeps the
identifying fields; the human-readable f-string message and the diagnostic
`details` dict are presentation payload no verified property reads. -/

inductive TriggerType where
  | VARIABLE_THRESHOLD
  | MESSAGE_PATTERN
  | MESSAGE_RATE
  | ERROR_COUNT
deriving DecidableEq, Repr

inductive TriggerComparison where
  | GREATER_THAN
  | LESS_THAN
  | EQUAL
  | NOT_EQUAL
  | GREATER_EQUAL
  | LESS_EQUAL
deriving DecidableEq, Repr

inductive TriggerAction where
  | VISUAL_ALERT
  | AUDIO_ALERT
  | LOG_TO_FILE
  | PAUSE_CAPTURE
  | HIGHLIGHT_MESSAGE
deriving DecidableEq, Repr

/-- The `TriggerCondition` dataclass.  Defaults mirror the dataclass field
defaults after `__post_init__` normalisation of `actions`. -/
structure TriggerCondition where
  trigger_id : String
  name : String
  enabled : Bool
  trigger_type : TriggerType
  variable_name : Option String := none
  comparison : Option TriggerComparison := none
  threshold_value : Option Rat := none
  message_pattern : Option String := none
  pattern_is_regex : Bool := false
  rate_threshold : Option Rat := none
  rate_window : Rat := 60
  actions : List TriggerAction := [.VISUAL_ALERT]
  created_at : Rat := 0
  fire_count : Nat := 0
  last_fired : Option Rat := none
deriving DecidableEq, Repr

/-- A fired trigger event (identifying fields). -/
structure TriggerEvent where
  trigger_id : String
  trigger_name : String
  timestamp : Rat
deriving DecidableEq, Repr

/-- The epsilon used by the equality and inequality comparators
(`1e-6` in the source). -/
def epsilonTol : Rat := 1 / 1000000

/-- The `conditions` dict of `_evaluate_variable_threshold`, one comparator
at a time. -/
def comparisonHolds : TriggerComparison → Rat → Rat → Bool
  | .GREATER_THAN, v, t => decide (t < v)
  | .LESS_THAN, v, t => decide (v < t)
  | .EQUAL, v, t => decide (|v - t| < epsilonTol)
  | .NOT_EQUAL, v, t => decide (epsilonTol ≤ |v - t|)
  | .GREATER_EQUAL, v, t => decide (t ≤ v)
  | .LESS_EQUAL, v, t => decide (v ≤ t)

/-- Python `float(value)` on a stored field value: ints and floats convert,
strings are parsed, failure is `none`. -/
def pyFloatOfVal : PyVal → Option Rat
  | .vInt n => some (n : Rat)
  | .vFloat q => some q
  | .vStr s => pyFloat s

/-- `TriggerEngine._evaluate_variable_threshold`.  A `none` variable name is
never a key of the string-keyed `data_fields` dict; a missing variable or a
failed `float(...)` conversion is a silent non-fire; a `none` threshold makes
the eagerly built `conditions` dict raise a `TypeError` (`Except.error`); a
`none` comparison falls to the `conditions.get(comparison, False)` default. -/
def evalVariableThreshold (trigger : TriggerCondition) (msg : Msg) :
    Except Unit (Option TriggerEvent) :=
  match trigger.variable_name with
  | none => .ok none
  | some vn =>
      match List.lookup vn msg.data_fields with
      | none => .ok none
      | some fi =>
          match pyFloatOfVal fi.value with
          | none => .ok none
          | some value =>
              match trigger.threshold_value with
              | none => .error ()
              | some threshold =>
                  let fired :=
                    match trigger.comparison with
                    | some c => comparisonHolds c value threshold
                    | none => false
                  .ok (if fired then
                         some ⟨trigger.trigger_id, trigger.name, msg.timestamp⟩
                       else none)

/-- Python substring containment `pat in text`. -/
def containsSubAux (p : List Char) : List Char → Bool
  | [] => p.isEmpty
  | c :: rest => if p.isPrefixOf (c :: rest) then true else containsSubAux p rest

/-- Python `pattern in text` on strings. -/
def containsSub (text pat : String) : Bool := containsSubAux pat.toList text.toList

/-- `TriggerEngine._evaluate_message_pattern`.  The regex engine is an
oracle parameter: `Except.error` stands for `re.error` (swallowed as no
match), `Except.ok b` for a search result.  The `if not pattern` truthiness
guard rejects both a `none` and an empty pattern before any matching. -/
def evalMessagePattern (regexSearch : String → String → Except Unit Bool)
    (trigger : TriggerCondition) (msg : Msg) : Option TriggerEvent :=
  match trigger.message_pattern with
  | none => none
  | some pattern =>
      if pattern = "" then none
      else if trigger.pattern_is_regex then
        match regexSearch pattern msg.text with
        | .ok true => some ⟨trigger.trigger_id, trigger.name, msg.timestamp⟩
        | .ok false => none
        | .error _ => none
      else if containsSub msg.text pattern then
        some ⟨trigger.trigger_id, trigger.name, msg.timestamp⟩
      else none

/-- `TriggerEngine._evaluate_message_rate`.  `msgTimestamps` is the engine's
`_message_timestamps` window (the current record's timestamp already
appended by `evaluate_message`).  A zero window raises
`ZeroDivisionError`, a `none` rate threshold raises `TypeError`. -/
def evalMessageRate (msgTimestamps : List Rat) (trigger : TriggerCondition)
    (msg : Msg) : Except Unit (Option TriggerEvent) :=
  let currentTime := msg.timestamp
  let windowStart := currentTime - trigger.rate_window
  let count := (msgTimestamps.filter (fun ts => decide (windowStart ≤ ts))).length
  if trigger.rate_window = 0 then .error ()
  else
    match trigger.rate_threshold with
    | none => .error ()
    | some th =>
        let rate := (count : Rat) / trigger.rate_window
        .ok (if th < rate then
               some ⟨trigger.trigger_id, trigger.name, currentTime⟩
             else none)

/-! ### Trigger persistence (`save_triggers` / `load_triggers`)

The JSON file contents are modelled by the structured value they denote:
`SavedData` is exactly the dict `save_triggers` passes to `json.dump`
(every dataclass field, enums as their string values).  A file read is
`Option (Except Unit SavedData)`: `none` a nonexistent path, `Except.error`
a file whose open or `json.load` raises, `Except.ok` parsed data. -/

def triggerTypeValue : TriggerType → String
  | .VARIABLE_THRESHOLD => "variable_threshold"
  | .MESSAGE_PATTERN => "message_pattern"
  | .MESSAGE_RATE => "message_rate"
  | .ERROR_COUNT => "error_count"

/-- `TriggerType(s)`: raises `ValueError` on an unknown value. -/
def triggerTypeOfValue (s : String) : Except Unit TriggerType :=
  if s = "variable_threshold" then .ok .VARIABLE_THRESHOLD
  else if s = "message_pattern" then .ok .MESSAGE_PATTERN
  else if s = "message_rate" then .ok .MESSAGE_RATE
  else if s = "error_count" then .ok .ERROR_COUNT
  else .error ()

def triggerComparisonValue : TriggerComparison → String
  | .GREATER_THAN => ">"
  | .LESS_THAN => "<"
  | .EQUAL => "=="
  | .NOT_EQUAL => "!="
  | .GREATER_EQUAL => ">="
  | .LESS_EQUAL => "<="

/-- `TriggerComparison(s)`: raises `ValueError` on an unknown value. -/
def triggerComparisonOfValue (s : String) : Except Unit TriggerComparison :=
  if s = ">" then .ok .GREATER_THAN
  else if s = "<" then .ok .LESS_THAN
  else if s = "==" then .ok .EQUAL
  else if s = "!=" then .ok .NOT_EQUAL
  else if s = ">=" then .ok .GREATER_EQUAL
  else if s = "<=" then .ok .LESS_EQUAL
  else .error ()

def triggerActionValue : TriggerAction → String
  | .VISUAL_ALERT => "visual_alert"
  | .AUDIO_ALERT => "audio_alert"
  | .LOG_TO_FILE => "log_to_file"
  | .PAUSE_CAPTURE => "pause_capture"
  | .HIGHLIGHT_MESSAGE => "highlight_message"

/-- `TriggerAction(s)`: raises `ValueError` on an unknown value. -/
def triggerActionOfValue (s : String) : Except Unit TriggerAction :=
  if s = "visual_alert" then .ok .VISUAL_ALERT
  else if s = "audio_alert" then .ok .AUDIO_ALERT
  else if s = "log_to_file" then .ok .LOG_TO_FILE
  else if s = "pause_capture" then .ok .PAUSE_CAPTURE
  else if s = "highlight_message" then .ok .HIGHLIGHT_MESSAGE
  else .error ()

/-- One serialized trigger as written by `save_triggers`: the `asdict`
fields with `trigger_type`, `comparison` and `actions` replaced by their
string values. -/
structure SavedTrigger where
  trigger_id : String
  name : String
  enabled : Bool
  trigger_type : String
  variable_name : Option String
  comparison : Option String
  threshold_value : Option Rat
  message_pattern : Option String
  pattern_is_regex : Bool
  rate_threshold : Option Rat
  rate_window : Rat
  actions : List String
  created_at : Rat
  fire_count : Nat
  last_fired : Option Rat
deriving DecidableEq, Repr

/-- The top-level dict passed to `json.dump`. -/
structure SavedData where
  version : String
  triggers : List SavedTrigger
deriving DecidableEq, Repr

/-- Serialisation of one trigger inside `save_triggers`. -/
def saveTrigger (t : TriggerCondition) : SavedTrigger :=
  { trigger_id := t.trigger_id
    name := t.name
    enabled := t.enabled
    trigger_type := triggerTypeValue t.trigger_type
    variable_name := t.variable_name
    comparison := t.comparison.map triggerComparisonValue
    threshold_value := t.threshold_value
    message_pattern := t.message_pattern
    pattern_is_regex := t.pattern_is_regex
    rate_threshold := t.rate_threshold
    rate_window := t.rate_window
    actions := t.actions.map triggerActionValue
    created_at := t.created_at
    fire_count := t.fire_count
    last_fired := t.last_fired }

/-- `TriggerEngine.save_triggers`: the engine's trigger dict (an
insertion-ordered association list keyed by trigger id) serialized in
order. -/
def saveTriggers (engine : List (String × TriggerCondition)) : SavedData :=
  { version := "1.0", triggers := engine.map (fun p => saveTrigger p.2) }

/-- Effectful map over a list, stopping at the first error (a Python list
comprehension whose element conversion may raise). -/
def mapExcept {α β : Type} (f : α → Except Unit β) : List α → Except Unit (List β)
  | [] => .ok []
  | a :: rest =>
      match f a with
      | .error e => .error e
      | .ok b =>
          match mapExcept f rest with
          | .error e => .error e
          | .ok bs => .ok (b :: bs)

/-- Reconstruction of one trigger inside `load_triggers`: enum string values
converted back (each conversion may raise), then the dataclass constructor
with `__post_init__` (`actions` from a load is always a list; a zero
`created_at` is replaced by the current time `now`).  The source converts
`comparison` only when truthy: a `None` stays `None`; an empty string would
stay an unconverted `""`, which no comparator branch ever equals, so the
typed model folds it into `none` (both never satisfy any comparator). -/
def loadSavedTrigger (now : Rat) (st : SavedTrigger) : Except Unit TriggerCondition :=
  match triggerTypeOfValue st.trigger_type with
  | .error e => .error e
  | .ok tt =>
      match (match st.comparison with
             | none => Except.ok none
             | some s =>
                 if s = "" then Except.ok none
                 else (triggerComparisonOfValue s).map some) with
      | .error e => .error e
      | .ok cmp =>
          match mapExcept triggerActionOfValue st.actions with
          | .error e => .error e
          | .ok acts =>
              .ok { trigger_id := st.trigger_id
                    name := st.name
                    enabled := st.enabled
                    trigger_type := tt
                    variable_name := st.variable_name
                    comparison := cmp
                    threshold_value := st.threshold_value
                    message_pattern := st.message_pattern
                    pattern_is_regex := st.pattern_is_regex
                    rate_threshold := st.rate_threshold
                    rate_window := st.rate_window
                    actions := acts
                    created_at := if st.created_at = 0 then now else st.created_at
                    fire_count := st.fire_count
                    last_fired := st.last_fired }

/-- The reconstruction loop of `load_triggers`, starting from the cleared
dict `acc`: each converted trigger is inserted before the next entry is
converted, so a failing entry aborts with the prefix already installed.
The boolean records whether an exception propagated to the caller. -/
def loadGo (now : Rat) : List (String × TriggerCondition) → List SavedTrigger →
    List (String × TriggerCondition) × Bool
  | acc, [] => (acc, false)
  | acc, st :: rest =>
      match loadSavedTrigger now st with
      | .ok t => loadGo now (upsertA acc t.trigger_id t) rest
      | .error _ => (acc, true)

/-- `TriggerEngine.load_triggers` over the modelled filesystem: a missing
path returns before touching the trigger set; a file whose read or
`json.load` raises propagates before `self.triggers.clear()`; parsed data
clears the set and runs the reconstruction loop. -/
def loadTriggersModel (cur : List (String × TriggerCondition)) (now : Rat)
    (file : Option (Except Unit SavedData)) :
    List (String × TriggerCondition) × Bool :=
  match file with
  | none => (cur, false)
  | some (.error _) => (cur, true)
  | some (.ok d) => loadGo now [] d.triggers

/-! ## Claims -/

/-- C1: the spec's escape-aware message extraction contract is implemented
by the variant in `test_message_parse.py`, but `SerialBackend` (the parser
actually used on lines) matches naively up to the first quote and never
unescapes.  At the line fragment `:m"a\" b"` the backend extracts the
message `a\` and leaves `b"` behind, while the escape-aware variant (the
documented contract) extracts `a" b` and removes the whole span.  Closed
evaluation of both source functions at that input. -/
theorem c1_message_escape_divergence :
    extractMessageField ":m\"a\\\" b\"" = (some "a\\", "b\"") ∧
    extractMessageFieldEscaped ":m\"a\\\" b\"" = (some "a\" b", "") := by
  exact ⟨rfl, rfl⟩

/-- C5 counterexample: with two `:t=` tokens in one line, only the first is
extracted; the second stays in the token stream and lands in `data_fields`
with type `timestamp`, so `data_fields` does contain a timestamp-typed
field, contrary to the claimed invariant. -/
theorem c5_timestamp_entry_counterexample :
    (parseLine 0 "a:t=5 b:t=6").data_fields =
      [("b", ⟨.vInt 6, "timestamp"⟩)] ∧
    (parseLine 0 "a:t=5 b:t=6").device_timestamp = some 5 := by
  exact ⟨rfl, rfl⟩

/-- C5 amended: only the single token the extractor consumes is removed
before generic field parsing.  Precisely: when `_extract_timestamp_field`
returns a value, the token list splits as `l1 ++ tok :: l2` where `tok` is
the first parseable `:t=` token (everything in `l1` is not one), the value
is `tok`'s, and the remaining tokens are exactly `l1 ++ l2`; when it returns
no value the token list is unchanged.  Other `:t`- or `:m`-typed tokens are
therefore kept and parsed as generic fields. -/
theorem c5_first_ts_token_removed (toks : List (List Char)) :
    (∀ v rem, extractTsTokens toks = (some v, rem) →
      ∃ l1 tok l2, toks = l1 ++ tok :: l2 ∧ rem = l1 ++ l2 ∧
        tsOfToken tok = some v ∧ ∀ u ∈ l1, tsOfToken u = none) ∧
    (∀ rem, extractTsTokens toks = (none, rem) → rem = toks) := by
  induction toks with
  | nil =>
      constructor
      · intro v rem h
        simp [extractTsTokens] at h
      · intro rem h
        simpa [extractTsTokens, eq_comm] using h
  | cons tok rest ih =>
      cases hts : tsOfToken tok with
      | some v0 =>
          constructor
          · intro v rem h
            simp [extractTsTokens, hts] at h
            exact ⟨[], tok, rest, by simp, by simp [h.2], by simp [hts, h.1], by simp⟩
          · intro rem h
            simp [extractTsTokens, hts] at h
      | none =>
          constructor
          · intro v rem h
            simp [extractTsTokens, hts] at h
            obtain ⟨h1, h2⟩ := h
            obtain ⟨l1, tk, l2, e1, e2, e3, e4⟩ :=
              ih.1 v (extractTsTokens rest).2 (by rw [← h1])
            refine ⟨tok :: l1, tk, l2, by simp [e1], by simp [← h2, e2], e3, ?_⟩
            intro u hu
            rcases List.mem_cons.mp hu with h | h
            · simpa [h] using hts
            · exact e4 u h
          · intro rem h
            simp [extractTsTokens, hts] at h
            obtain ⟨h1, h2⟩ := h
            have := ih.2 (extractTsTokens rest).2 (by rw [← h1])
            simp [← h2, this]

/-- C5 amended, witness: on the token list `[x:t=5, a=1]` the extractor
removes exactly the `x:t=5` token. -/
theorem c5_first_ts_token_removed_witness :
    ∃ l1 tok l2,
      ([['x', ':', 't', '=', '5'], ['a', '=', '1']] : List (List Char)) =
        l1 ++ tok :: l2 ∧
      ([['a', '=', '1']] : List (List Char)) = l1 ++ l2 ∧
      tsOfToken tok = some 5 ∧ ∀ u ∈ l1, tsOfToken u = none :=
  (c5_first_ts_token_removed [['x', ':', 't', '=', '5'], ['a', '=', '1']]).1
    5 [['a', '=', '1']] rfl

/-- C7: every integer-parseable raw value declared `u` (uint) or `t`
(timestamp) converts to `|int| mod 2^32`; the negative sign is discarded by
`abs`, never an error. -/
theorem c7_uint_conversion (raw : String) (n : Int) (h : pyInt raw = some n) :
    convertValue "uint" raw = .vInt ((n.natAbs % 2 ^ 32 : Nat) : Int) ∧
    convertValue "timestamp" raw = .vInt ((n.natAbs % 2 ^ 32 : Nat) : Int) := by
  constructor <;> simp [convertValue, h]

/-- C7 witness: converting `-7` with type `u` (and `t`) yields `7`. -/
theorem c7_uint_conversion_witness :
    convertValue "uint" "-7" = .vInt 7 ∧
    convertValue "timestamp" "-7" = .vInt 7 :=
  c7_uint_conversion "-7" (-7) rfl

/-- Whether the numeric conversion for the given type label fails on the raw
value (the `except (ValueError, TypeError)` branch being taken). -/
def numericConvFails (label : String) (raw : String) : Bool :=
  if label = "float" then (pyFloat raw).isNone else (pyInt raw).isNone

/-- C8: a token whose declared type suffix is numeric (`u`, `i`, `f`, `t`)
but whose raw value fails numeric parsing keeps the raw string verbatim as
its value and retains the declared type label, which is never `str`. -/
theorem c8_numeric_failure_keeps_raw (namePart nm tc : List Char) (raw : String)
    (hsp : splitLast ':' namePart = some (nm, tc))
    (h1 : tc = ['u'] ∨ tc = ['i'] ∨ tc = ['f'] ∨ tc = ['t'])
    (hfail : numericConvFails (typeMapLookup tc) raw = true) :
    mkField namePart raw = (String.mk nm, ⟨.vStr raw, typeMapLookup tc⟩) ∧
    typeMapLookup tc ≠ "str" := by
  have hv : convertValue (typeMapLookup tc) raw = .vStr raw := by
    rcases h1 with rfl | rfl | rfl | rfl <;>
      simp_all [numericConvFails, typeMapLookup, convertValue,
        Option.isNone_iff_eq_none]
  refine ⟨?_, ?_⟩
  · simp [mkField, hsp, hv]
  · rcases h1 with rfl | rfl | rfl | rfl <;> simp [typeMapLookup]

/-- C8 witness: the token `x:u=abc` (name part `x:u`, raw value `abc`)
keeps value `abc` with type `uint`. -/
theorem c8_numeric_failure_keeps_raw_witness :
    mkField ['x', ':', 'u'] "abc" =
      ("x", ⟨.vStr "abc", typeMapLookup ['u']⟩) ∧
    typeMapLookup ['u'] ≠ "str" :=
  c8_numeric_failure_keeps_raw ['x', ':', 'u'] ['x'] ['u'] "abc" rfl
    (Or.inl rfl) rfl

/-- C9 counterexample: on the line `:m"" hello` the message extraction
succeeds with the empty content, but the record's `text` is the leftover
`hello`, not the extracted content — the source tests truthiness, not
success, so the claim as stated fails. -/
theorem c9_empty_message_counterexample :
    (extractMessageField (detectLevel ":m\"\" hello").2).1 = some "" ∧
    (parseLine 0 ":m\"\" hello").text = "hello" ∧
    ("hello" : String) ≠ "" := by
  refine ⟨rfl, rfl, by decide⟩

/-- C9 amended: the record's `text` is the extracted message content when
extraction succeeded with nonempty content; when extraction produced the
empty string or found no span, `text` is the leftover non-field remainder
after timestamp-token removal (whitespace-normalised by the extractors). -/
theorem c9_text_composition (now : Rat) (line : String) (m rest : String) :
    (extractMessageField (detectLevel line).2 = (some m, rest) ∧ m ≠ "" →
      (parseLine now line).text = m) ∧
    (extractMessageField (detectLevel line).2 = (some "", rest) →
      (parseLine now line).text = (extractTimestampField rest).2) ∧
    (extractMessageField (detectLevel line).2 = (none, rest) →
      (parseLine now line).text = (extractTimestampField rest).2) := by
  refine ⟨?_, ?_, ?_⟩
  · rintro ⟨h1, h2⟩
    simp [parseLine, h1, h2]
  · intro h
    simp [parseLine, h]
  · intro h
    simp [parseLine, h]

/-- C9 amended, witness: on `[INFO] :m"hi" x:t=7` the extracted nonempty
message `hi` becomes the record text. -/
theorem c9_text_composition_witness :
    (parseLine 0 "[INFO] :m\"hi\" x:t=7").text = "hi" :=
  (c9_text_composition 0 "[INFO] :m\"hi\" x:t=7" "hi" "x:t=7").1
    ⟨rfl, by decide⟩

/-- C10: a message-pattern trigger whose pattern is the empty string never
fires, for every regex oracle (hence in regex mode whatever `re.search`
would say) and in plain substring mode alike: the `if not pattern`
truthiness guard rejects it before any matching. -/
theorem c10_empty_pattern_never_fires
    (oracle : String → String → Except Unit Bool)
    (trig : TriggerCondition) (msg : Msg)
    (h : trig.message_pattern = some "") :
    evalMessagePattern oracle trig msg = none := by
  simp [evalMessagePattern, h]

/-- C2: an enabled variable-threshold trigger with a configured variable,
comparator and threshold fires exactly when the record's `data_fields`
contain the variable with a value whose `float` conversion succeeds and
satisfies the comparator against the threshold (equality and inequality
with the 1e-6 epsilon); an absent variable or a failed conversion never
fires. -/
theorem c2_variable_threshold_fires_iff (trig : TriggerCondition) (msg : Msg)
    (vn : String) (c : TriggerComparison) (t : Rat)
    (_h0 : trig.enabled = true)
    (h1 : trig.variable_name = some vn)
    (h2 : trig.comparison = some c)
    (h3 : trig.threshold_value = some t) :
    (∃ ev, evalVariableThreshold trig msg = .ok (some ev)) ↔
    (∃ fi x, List.lookup vn msg.data_fields = some fi ∧
      pyFloatOfVal fi.value = some x ∧ comparisonHolds c x t = true) := by
  constructor
  · rintro ⟨ev, hev⟩
    unfold evalVariableThreshold at hev
    cases hl : List.lookup vn msg.data_fields with
    | none =>
        simp [h1, hl] at hev
    | some fi =>
        cases hv : pyFloatOfVal fi.value with
        | none =>
            simp [h1, hl, hv] at hev
        | some x =>
            simp only [h1, hl, hv, h3, h2] at hev
            by_cases hc : comparisonHolds c x t = true
            · exact ⟨fi, x, rfl, hv, hc⟩
            · rw [if_neg hc] at hev
              simp at hev
  · rintro ⟨fi, x, hl, hv, hc⟩
    refine ⟨⟨trig.trigger_id, trig.name, msg.timestamp⟩, ?_⟩
    unfold evalVariableThreshold
    simp only [h1, hl, hv, h3, h2]
    rw [if_pos hc]

/-- C2 witness: the record parsed from `temp:f=35.5` satisfies a
`temp > 30` trigger, and the characterisation instantiates there. -/
theorem c2_variable_threshold_fires_iff_witness :
    (∃ ev, evalVariableThreshold
      { trigger_id := "t1", name := "temp high", enabled := true,
        trigger_type := .VARIABLE_THRESHOLD, variable_name := some "temp",
        comparison := some .GREATER_THAN, threshold_value := some 30 }
      (parseLine 0 "temp:f=35.5") = .ok (some ev)) ↔
    (∃ fi x, List.lookup "temp" (parseLine 0 "temp:f=35.5").data_fields = some fi ∧
      pyFloatOfVal fi.value = some x ∧
      comparisonHolds .GREATER_THAN x 30 = true) :=
  c2_variable_threshold_fires_iff _ _ "temp" .GREATER_THAN 30 rfl rfl rfl rfl

/-- C6: an enabled message-rate trigger with threshold 5 msg/s over a 10 s
window fires on an evaluation exactly when strictly more than 50 timestamps
of the engine's message window lie in the trailing 10 seconds (so at most
50 never fires, and the evaluation seeing the 51st fires): the rate is
count / window and must strictly exceed the threshold. -/
theorem c6_rate_boundary (tsList : List Rat) (trig : TriggerCondition) (msg : Msg)
    (_h0 : trig.enabled = true)
    (h1 : trig.rate_threshold = some 5)
    (h2 : trig.rate_window = 10) :
    (∃ ev, evalMessageRate tsList trig msg = .ok (some ev)) ↔
    50 < (tsList.filter (fun ts => decide (msg.timestamp - 10 ≤ ts))).length := by
  have hne : ¬((10 : Rat) = 0) := by norm_num
  unfold evalMessageRate
  rw [h1, h2]
  simp only [hne, if_false]
  set cnt := (tsList.filter (fun ts => decide (msg.timestamp - 10 ≤ ts))).length with hcnt
  have hiff : ((5 : Rat) < (cnt : Rat) / 10) ↔ (50 < cnt) := by
    rw [lt_div_iff₀ (by norm_num : (0 : Rat) < 10)]
    constructor
    · intro h
      exact_mod_cast (by linarith : (50 : Rat) < (cnt : Rat))
    · intro h
      have : (50 : Rat) < (cnt : Rat) := by exact_mod_cast h
      linarith
  by_cases hc : (5 : Rat) < (cnt : Rat) / 10
  · simp [hc, hiff.mp hc]
  · simp [hc]
    exact Nat.le_of_not_lt (fun h => hc (hiff.mpr h))

/-- C6 witness: with 51 in-window timestamps the trigger fires and the
boundary characterisation instantiates. -/
theorem c6_rate_boundary_witness :
    (∃ ev, evalMessageRate (List.replicate 51 100)
      { trigger_id := "r", name := "rate", enabled := true,
        trigger_type := .MESSAGE_RATE, rate_threshold := some 5,
        rate_window := 10 }
      { timestamp := 100, level := "INFO", text := "",
        device_timestamp := none, data_fields := [] } = .ok (some ev)) ↔
    50 < ((List.replicate 51 (100 : Rat)).filter
      (fun ts => decide ((100 : Rat) - 10 ≤ ts))).length :=
  c6_rate_boundary (List.replicate 51 100) _ _ rfl rfl rfl

/-- C10 witness: an always-matching regex oracle and an empty-pattern regex
trigger on a concrete record still produce no fire. -/
theorem c10_empty_pattern_never_fires_witness :
    evalMessagePattern (fun _ _ => Except.ok true)
      { trigger_id := "p", name := "p", enabled := true,
        trigger_type := .MESSAGE_PATTERN, message_pattern := some "",
        pattern_is_regex := true }
      (parseLine 0 "hello") = none :=
  c10_empty_pattern_never_fires (fun _ _ => Except.ok true) _ _ rfl

/-! ### Persistence lemmas for C3 and C4 -/

theorem triggerType_roundtrip (tt : TriggerType) :
    triggerTypeOfValue (triggerTypeValue tt) = .ok tt := by
  cases tt <;> rfl

theorem triggerComparison_roundtrip (c : TriggerComparison) :
    triggerComparisonOfValue (triggerComparisonValue c) = .ok c := by
  cases c <;> rfl

theorem triggerComparisonValue_ne_empty (c : TriggerComparison) :
    triggerComparisonValue c ≠ "" := by
  cases c <;> decide

theorem triggerAction_roundtrip (a : TriggerAction) :
    triggerActionOfValue (triggerActionValue a) = .ok a := by
  cases a <;> rfl

theorem actions_roundtrip (l : List TriggerAction) :
    mapExcept triggerActionOfValue (l.map triggerActionValue) = .ok l := by
  induction l with
  | nil => rfl
  | cons a rest ih => simp [mapExcept, triggerAction_roundtrip, ih]

/-- Reconstructing a serialized trigger restores it exactly, provided the
original trigger's creation stamp is nonzero (always true for triggers the
engine created, since `__post_init__` replaces a zero stamp with the
current wall-clock time). -/
theorem loadSave_roundtrip (now : Rat) (t : TriggerCondition)
    (h : t.created_at ≠ 0) :
    loadSavedTrigger now (saveTrigger t) = .ok t := by
  obtain ⟨tid, nm, en, tt, vn, cmp, th, mp, pir, rth, rwin, acts, ca, fc, lf⟩ := t
  simp only at h
  unfold loadSavedTrigger saveTrigger
  simp only [triggerType_roundtrip]
  cases cmp with
  | none => simp [actions_roundtrip, h]
  | some c =>
      simp [triggerComparisonValue_ne_empty c, triggerComparison_roundtrip,
        actions_roundtrip, h, Except.map]

theorem upsertA_not_mem {α β : Type} [DecidableEq α]
    (l : List (α × β)) (k : α) (v : β) (h : k ∉ l.map Prod.fst) :
    upsertA l k v = l ++ [(k, v)] := by
  induction l with
  | nil => rfl
  | cons p rest ih =>
      obtain ⟨k0, v0⟩ := p
      simp only [List.map_cons, List.mem_cons] at h
      push_neg at h
      simp [upsertA, Ne.symm h.1, ih h.2]

/-- The reconstruction loop over a saved engine restores `acc ++ engine`
when ids are the dict keys, creation stamps are nonzero and keys are not
duplicated. -/
theorem loadGo_save (now : Rat) (rest : List (String × TriggerCondition)) :
    ∀ acc : List (String × TriggerCondition),
      (∀ p ∈ rest, p.1 = p.2.trigger_id ∧ p.2.created_at ≠ 0) →
      ((acc ++ rest).map Prod.fst).Nodup →
      loadGo now acc (rest.map (fun p => saveTrigger p.2)) = (acc ++ rest, false) := by
  induction rest with
  | nil =>
      intro acc _ _
      simp [loadGo]
  | cons p rest' ih =>
      intro acc hks hnd
      obtain ⟨k, t⟩ := p
      obtain ⟨hk1, hk2⟩ := hks (k, t) (by simp)
      simp only at hk1 hk2
      subst hk1
      have hnotin : t.trigger_id ∉ acc.map Prod.fst := by
        simp only [List.map_append, List.map_cons] at hnd
        have hdisj := (List.nodup_append.mp hnd).2.2
        intro hmem
        exact hdisj hmem (List.mem_cons_self _ _)
      have step : loadGo now acc ((( t.trigger_id, t) :: rest').map (fun p => saveTrigger p.2)) =
          loadGo now (upsertA acc t.trigger_id t) (rest'.map (fun p => saveTrigger p.2)) := by
        simp [loadGo, loadSave_roundtrip now t hk2]
      rw [step, upsertA_not_mem acc t.trigger_id t hnotin]
      have ih' := ih (acc ++ [(t.trigger_id, t)])
        (fun q hq => hks q (by simp [hq]))
        (by simpa [List.append_assoc] using hnd)
      simpa [List.append_assoc] using ih'

/-- C3 amended: loading a nonexistent path leaves the trigger set unchanged
and raises nothing; a file whose read or parse raises leaves the set
unchanged (the exception fires before the set is cleared); once the file
parses, the previous set is discarded unconditionally and the result
depends only on the file, and when every entry reconstructs the set is
wholly replaced with no error.  (A reconstruction failure partway is the
non-atomic case, exhibited by the counterexample.) -/
theorem c3_load_semantics (cur : List (String × TriggerCondition)) (now : Rat) :
    loadTriggersModel cur now none = (cur, false) ∧
    loadTriggersModel cur now (some (.error ())) = (cur, true) ∧
    (∀ d : SavedData,
      loadTriggersModel cur now (some (.ok d)) = loadGo now [] d.triggers) ∧
    (∀ (d : SavedData) (ts : List TriggerCondition),
      mapExcept (loadSavedTrigger now) d.triggers = .ok ts →
      loadTriggersModel cur now (some (.ok d)) =
        (ts.foldl (fun a t => upsertA a t.trigger_id t) [], false)) := by
  refine ⟨rfl, rfl, fun d => rfl, ?_⟩
  intro d ts h
  have main : ∀ (sts : List SavedTrigger) (ts : List TriggerCondition)
      (acc : List (String × TriggerCondition)),
      mapExcept (loadSavedTrigger now) sts = .ok ts →
      loadGo now acc sts = (ts.foldl (fun a t => upsertA a t.trigger_id t) acc, false) := by
    intro sts
    induction sts with
    | nil =>
        intro ts acc h
        simp only [mapExcept] at h
        cases h
        simp [loadGo]
    | cons st rest ih =>
        intro ts acc h
        cases hf : loadSavedTrigger now st with
        | error e => simp [mapExcept, hf] at h
        | ok b =>
            cases hr : mapExcept (loadSavedTrigger now) rest with
            | error e => simp [mapExcept, hf, hr] at h
            | ok bs =>
                simp only [mapExcept, hf, hr] at h
                cases h
                simp [loadGo, hf, ih bs (upsertA acc b.trigger_id b) hr]
  exact main d.triggers ts [] h

/-- A well-formed trigger used by the C3 artifacts. -/
def c3good : TriggerCondition :=
  { trigger_id := "g", name := "good", enabled := true,
    trigger_type := .MESSAGE_PATTERN, message_pattern := some "x",
    created_at := 1 }

/-- A saved entry whose `trigger_type` string is not a `TriggerType` value,
so `TriggerType(...)` raises during reconstruction. -/
def c3bad : SavedTrigger :=
  { trigger_id := "b", name := "bad", enabled := true,
    trigger_type := "bogus", variable_name := none, comparison := none,
    threshold_value := none, message_pattern := none,
    pattern_is_regex := false, rate_threshold := none, rate_window := 60,
    actions := [], created_at := 1, fire_count := 0, last_fired := none }

/-- The trigger set held before the failing load in the C3 counterexample. -/
def c3old : TriggerCondition :=
  { trigger_id := "old", name := "old", enabled := true,
    trigger_type := .MESSAGE_RATE, rate_threshold := some 5,
    rate_window := 10, created_at := 1 }

/-- C3 counterexample: loading a parseable file whose second entry fails to
reconstruct raises after installing the first entry — the previous trigger
set is gone and only part of the file's set is installed, so replacement is
not atomic on reconstruction failure. -/
theorem c3_load_not_atomic_counterexample :
    loadTriggersModel [("old", c3old)] 2
      (some (.ok ⟨"1.0", [saveTrigger c3good, c3bad]⟩)) =
      ([("g", c3good)], true) ∧
    ([("g", c3good)] : List (String × TriggerCondition)) ≠ [("old", c3old)] := by
  refine ⟨rfl, by decide⟩

/-- C3 amended, witness: a fully valid single-entry file replaces an empty
engine's set with exactly that entry and raises nothing. -/
theorem c3_load_semantics_witness :
    loadTriggersModel [] 2 (some (.ok ⟨"1.0", [saveTrigger c3good]⟩)) =
      ([("g", c3good)], false) :=
  (c3_load_semantics [] 2).2.2.2 ⟨"1.0", [saveTrigger c3good]⟩ [c3good] rfl

/-- C4: saving an engine's trigger set and loading the file into a fresh
engine reproduces the identical set — same ids, same kind-specific
parameters, same enabled flags, and fire counters exactly as persisted
(not reset) — under the engine's dict invariants (entries keyed by their
trigger id, no duplicate ids) and nonzero creation stamps. -/
theorem c4_save_load_roundtrip (engine : List (String × TriggerCondition))
    (now : Rat)
    (hks : ∀ p ∈ engine, p.1 = p.2.trigger_id ∧ p.2.created_at ≠ 0)
    (hnd : (engine.map Prod.fst).Nodup) :
    loadTriggersModel [] now (some (.ok (saveTriggers engine))) = (engine, false) := by
  have h := loadGo_save now engine [] hks (by simpa using hnd)
  simpa [loadTriggersModel, saveTriggers] using h

/-- A concrete engine used by the C4 witness; its fire counter is nonzero
to exhibit that counters survive the round trip. -/
def c4engine : List (String × TriggerCondition) :=
  [("t1", { trigger_id := "t1", name := "temp high", enabled := true,
            trigger_type := .VARIABLE_THRESHOLD, variable_name := some "temp",
            comparison := some .GREATER_THAN, threshold_value := some 30,
            created_at := 5, fire_count := 3, last_fired := some 8 })]

/-- C4 witness: the round trip at a concrete one-trigger engine. -/
theorem c4_save_load_roundtrip_witness :
    loadTriggersModel [] 9 (some (.ok (saveTriggers c4engine))) =
      (c4engine, false) :=
  c4_save_load_roundtrip c4engine 9 (by decide) (by decide)

end Uartium
